import Mathlib

/-!
# Verification of the `agentbrowser` core

A shallow embedding, in Lean 4, of the decision logic of the `agentbrowser`
Python package (element resolution, retry orchestration, form filling,
page summarization, action recording and replay), together with theorems
settling the specification claims about it.

Python strings are embedded as `List Char` (a Python `str` is a sequence of
code points; slicing `[:n]` is `List.take n`, `str.lower` maps
`Char.toLower` over the code points, `str.strip` drops whitespace on both
ends).  Python `float` timestamps are embedded as `Int`; none of the claims
depends on floating-point rounding.  Driver-side state (the Playwright
page) is embedded as explicit data supplying the results of each locator
primitive the code consults.
-/

namespace AgentBrowser

/-- A Python string as a sequence of code points. -/
abbrev Str := List Char

/-- Python `str.lower()` (ASCII-relevant part: per-code-point lowering). -/
def pyLower (s : Str) : Str := s.map Char.toLower

/-- Python whitespace test for `str.strip()` (the ASCII whitespace the code
can meet in the relevant call sites). -/
def isPyWs (c : Char) : Bool := c = ' ' ∨ c = '\t' ∨ c = '\n' ∨ c = '\r'

/-- Python `str.strip()`: drop whitespace from both ends. -/
def pyStrip (s : Str) : Str :=
  ((s.dropWhile isPyWs).reverse.dropWhile isPyWs).reverse

/-- Python `s.startswith(p)`. -/
def leadsWith (p : Str) (s : Str) : Bool :=
  match p, s with
  | [], _ => true
  | _ :: _, [] => false
  | a :: ps, b :: ss => a = b && leadsWith ps ss

/-- Python `needle in hay` (substring containment). -/
def containsSub (needle : Str) (hay : Str) : Bool :=
  (List.range (hay.length + 1)).any fun i => leadsWith needle (hay.drop i)

/-! ## `config.py` — `RetryConfig` (the fields the verified code reads) -/

/-- Retry configuration for element finding (`config.RetryConfig`). -/
structure RetryConfig where
  max_retries : Nat
  retry_delay_ms : Nat
  element_timeout_ms : Nat

/-! ## `actions.py` — `_with_retry`, the retry orchestrator (§4.2)

`_with_retry` loops `for attempt in range(config.max_retries)`, calling
`find_element` each time; on `ElementNotFoundError` it remembers the error
and, when attempts remain, sleeps `retry_delay_ms` before the next pass;
after the loop it re-raises the last error.  The attempt-indexed outcomes
of `find_element` against the live page are embedded as a function
`f : Nat → Except E A`; the result records the outcome, the number of
attempts made, and the number of sleeps performed.  When
`max_retries = 0` the Python code reaches `raise last_err` with
`last_err = None` (a `TypeError`); this is embedded as `.error none`. -/

/-- The loop `for attempt in range(config.max_retries)` of
`actions._with_retry`, over the remaining attempt indices, with `sleeps`
sleeps already performed and `lastErr` the last error seen.  When the
attempt list is exhausted, every one of the `maxRetries` attempts was
made and failed. -/
def withRetryGo (f : Nat → Except E A) (maxRetries : Nat) :
    List Nat → Nat → Option E → Except (Option E) A × Nat × Nat
  | [], sleeps, lastErr => (.error lastErr, maxRetries, sleeps)
  | attempt :: rest, sleeps, lastErr =>
    match f attempt with
    | .ok el => (.ok el, attempt + 1, sleeps)
    | .error e =>
        withRetryGo f maxRetries rest
          (if attempt < maxRetries - 1 then sleeps + 1 else sleeps) (some e)

/-- The function `actions._with_retry`: returns the outcome together with
the number of attempts made and the number of sleeps performed. -/
def withRetry (f : Nat → Except E A) (maxRetries : Nat) :
    Except (Option E) A × Nat × Nat :=
  withRetryGo f maxRetries (List.range maxRetries) 0 none

/-! ## `recorder.py` — `RecordedAction` and `ActionRecorder` -/

/-- A serializable argument value (Python string / number / bool /
string-keyed mapping), as stored in `RecordedAction.args`. -/
inductive JVal where
  | s (v : Str)
  | n (v : Int)
  | b (v : Bool)
  | m (v : List (Str × JVal))

/-- One recorded action (`recorder.RecordedAction`).  `timestamp` is the
offset (seconds) since the recording started. -/
structure RecordedAction where
  action : Str
  args : List (Str × JVal)
  timestamp : Int

/-- The dictionary shape produced by `RecordedAction.to_dict` and consumed
by `RecordedAction.from_dict`; `args` and `timestamp` are optional because
`from_dict` reads them with `d.get(key, default)`. -/
structure ActionDict where
  action : Str
  args : Option (List (Str × JVal))
  timestamp : Option Int

/-- Serialization, `RecordedAction.to_dict`. -/
def RecordedAction.to_dict (a : RecordedAction) : ActionDict :=
  { action := a.action, args := some a.args, timestamp := some a.timestamp }

/-- Deserialization, `RecordedAction.from_dict`. -/
def RecordedAction.from_dict (d : ActionDict) : RecordedAction :=
  { action := d.action, args := d.args.getD [], timestamp := d.timestamp.getD 0 }

/-- State of `recorder.ActionRecorder` (Python fields `_recording`,
`_actions`, `_start_time`). -/
structure ActionRecorder where
  recording : Bool
  actions : List RecordedAction
  start_time : Int

/-- The initial recorder state, `ActionRecorder.__init__`. -/
def ActionRecorder.init : ActionRecorder :=
  { recording := false, actions := [], start_time := 0 }

/-- Start recording, `ActionRecorder.start` (`time.time()` is passed in as
`now`). -/
def ActionRecorder.start (r : ActionRecorder) (now : Int) : ActionRecorder :=
  { r with recording := true, actions := [], start_time := now }

/-- Stop recording, `ActionRecorder.stop`: returns the recorded actions (a
copy of the
buffer) together with the post-call state. -/
def ActionRecorder.stop (r : ActionRecorder) :
    List RecordedAction × ActionRecorder :=
  (r.actions, { r with recording := false })

/-- Record one action, `ActionRecorder.record` (`time.time()` is passed in
as `now`). -/
def ActionRecorder.record (r : ActionRecorder) (action : Str)
    (kwargs : List (Str × JVal)) (now : Int) : ActionRecorder :=
  if ¬ r.recording then r
  else
    { r with
      actions := r.actions ++ [⟨action, kwargs, now - r.start_time⟩] }

/-- Run a list of `record` calls `(action, kwargs, now)` against a
recorder state, in order. -/
def runRecords (r : ActionRecorder) :
    List (Str × List (Str × JVal) × Int) → ActionRecorder
  | [] => r
  | e :: evs => runRecords (r.record e.1 e.2.1 e.2.2) evs

/-! ## `elements.py` — `find_element`, the strategy chain resolver (§4.1)

The Playwright page is embedded as explicit data: for each locator
primitive the code consults, the `Page` holds the ordered match list the
driver would report.  An `Elem` carries what the code reads off a matched
locator: the `el.tagName.toLowerCase()` evaluation result (`""` embeds a
falsy result, which Python's `or` replaces with a fallback), the
`inner_text()` result, and — for the form-filling code — the
`get_attribute("type")` result (`""` embeds `None`) and the
`is_checked()` state. -/

/-- An element as seen through the driver. -/
structure Elem where
  tag : Str
  innerText : Str
  attrType : Str := []
  checked : Bool := false
deriving DecidableEq

/-- A found element with metadata (`elements.FoundElement`); `locator`
stands for the Playwright locator the dataclass keeps. -/
structure FoundElement where
  locator : Elem
  tag : Str
  text : Str
  role : Option Str := none
  label : Option Str := none
deriving DecidableEq

/-- The data of `exceptions.ElementNotFoundError`: the query and the
suggestions collected from the page. -/
structure ElementNotFoundError where
  query : Str
  available : List Str
deriving DecidableEq

/-- The driver-side state of one page: the ordered match lists each
locator primitive used by `find_element` would report for a given query,
and the per-role element lists `get_by_role(role)` (no name filter) would
report, used for error suggestions. -/
structure Page where
  selectorMatches : Str → List Elem
  roleMatches : Str → Str → List Elem
  labelMatches : Str → List Elem
  placeholderMatches : Str → List Elem
  textMatches : Str → List Elem
  attrMatches : Str → List Elem
  roleAll : Str → List Elem

/-- Python `x or default` for strings: the fallback applied to a falsy
(empty) tag evaluation result. -/
def tagOr (t : Str) (dflt : Str) : Str := if t = [] then dflt else t

/-- The tag tuple `("input", "select", "textarea")` that `find_element`
excludes when reading display text. -/
def inputTags : List Str := [("input".data), ("select".data), ("textarea".data)]

/-- Python `.strip()[:100]` as applied to inner text in `find_element`. -/
def stripTake100 (s : Str) : Str := (pyStrip s).take 100

/-- The heuristic `elements._looks_like_selector`. -/
def looksLikeSelector (query : Str) : Bool :=
  if leadsWith ("//".data) query || leadsWith ("xpath=".data) query then true
  else if (match query with
           | c :: _ => c = '#' || c = '.' || c = '['
           | [] => false) then true
  else if containsSub ("::".data) query || containsSub (" > ".data) query
      || containsSub (" ~ ".data) query then true
  else false

/-- The fixed role order `("button", "link", "menuitem", "tab", "option")`
of strategy 2 in `find_element`. -/
def roleOrder : List Str :=
  [("button".data), ("link".data), ("menuitem".data), ("tab".data), ("option".data)]

/-- The role loop of `find_element` (strategy 2): the first role with at
least one match wins. -/
def tryRoles (page : Page) (query : Str) : List Str → Option FoundElement
  | [] => none
  | role :: rest =>
    match page.roleMatches role query with
    | [] => tryRoles page query rest
    | first :: _ =>
        some { locator := first, tag := tagOr first.tag role,
               text := stripTake100 first.innerText, role := some role }

/-- The suggestion scan `elements._get_available_interactive`: up to 5
entries per role over the fixed roles, stopping once `limit` entries were
collected, truncated to `limit`. -/
def getAvailableInteractive (page : Page) (limit : Nat := 15) : List Str :=
  let step : List Str → Str → List Str := fun items role =>
    if limit ≤ items.length then items
    else
      items ++ ((page.roleAll role).take 5).filterMap fun el =>
        let name := (pyStrip el.innerText).take 50
        if name = [] then none
        else some (('[' :: role ++ ("] ".data)) ++ name)
  (([("button".data), ("link".data), ("textbox".data), ("menuitem".data)].foldl
      step []).take limit)

/-- Strategy 6 of `find_element` (title / aria-label attribute match) and
the final failure case. -/
def findByAttr (page : Page) (query : Str) :
    Except ElementNotFoundError FoundElement :=
  match page.attrMatches query with
  | first :: _ =>
      let tag := tagOr first.tag ("unknown".data)
      let text_val := if inputTags.contains tag then [] else first.innerText
      .ok { locator := first, tag := tag, text := stripTake100 text_val }
  | [] => .error ⟨query, getAvailableInteractive page 15⟩

/-- Strategy 5 of `find_element` (any visible text content), falling
through to strategy 6. -/
def findByText (page : Page) (query : Str) :
    Except ElementNotFoundError FoundElement :=
  match page.textMatches query with
  | first :: _ =>
      .ok { locator := first, tag := tagOr first.tag ("unknown".data),
            text := stripTake100 first.innerText }
  | [] => findByAttr page query

/-- Strategy 4 of `find_element` (placeholder), falling through to
strategy 5. -/
def findByPlaceholder (page : Page) (query : Str) :
    Except ElementNotFoundError FoundElement :=
  match page.placeholderMatches query with
  | first :: _ =>
      .ok { locator := first, tag := tagOr first.tag ("input".data),
            text := [], label := some query }
  | [] => findByText page query

/-- Strategy 3 of `find_element` (form label), falling through to
strategy 4. -/
def findByLabel (page : Page) (query : Str) :
    Except ElementNotFoundError FoundElement :=
  match page.labelMatches query with
  | first :: _ =>
      .ok { locator := first, tag := tagOr first.tag ("input".data),
            text := [], label := some query }
  | [] => findByPlaceholder page query

/-- Strategy 2 of `find_element` (ARIA role over the fixed role order),
falling through to strategy 3. -/
def findByRole (page : Page) (query : Str) :
    Except ElementNotFoundError FoundElement :=
  match tryRoles page query roleOrder with
  | some fe => .ok fe
  | none => findByLabel page query

/-- The resolver `elements.find_element`.  The `config` argument mirrors
the Python signature `config: RetryConfig | None = None`; the function
body never reads it. -/
def find_element (page : Page) (query : Str)
    (config : Option RetryConfig := none) :
    Except ElementNotFoundError FoundElement :=
  if looksLikeSelector query then
    match page.selectorMatches query with
    | first :: _ =>
        let tag := tagOr first.tag ("unknown".data)
        let text := if inputTags.contains tag then []
                    else stripTake100 first.innerText
        .ok { locator := first, tag := tag, text := text }
    | [] => findByRole page query
  else findByRole page query

/-! ## `forms.py` — `fill_form`, the label-keyed batch filler (§4.4)

Driver interactions are recorded as a trace of `DriverOp` events, in the
order the code performs them; `pause` is the `random_delay` call ending
each field iteration, and `resolve` marks one `find_element` invocation.
Because the page may change between driver calls, the page state is
indexed by the number of `find_element` calls made so far
(`pages : Nat → Page`); the `field_values` dict is embedded as an
association list in Python dict (insertion) order.  The `submit=True`
tail of `fill_form` (re-detect forms and click the submit button) is not
consulted by any claim and is not embedded; the trace below is the
`submit=False` behavior, the field loop. -/

/-- One driver interaction performed by `fill_form`. -/
inductive DriverOp where
  | resolve (query : Str)
  | selectOption (label : Str)
  | click
  | clear
  | pressSequentially (text : Str)
  | fill (text : Str)
  | pause
deriving DecidableEq

/-- The truthy literal tuple `("true", "yes", "1", "on")` the checkbox
branch of `fill_form` tests against. -/
def truthyLits : List Str :=
  [("true".data), ("yes".data), ("1".data), ("on".data)]

/-- The per-field dispatch of `fill_form`, given the resolved element:
the driver operations the branch performs for one `(label, value)` pair
(the trailing `random_delay` is appended by the loop, not here). -/
def fillFieldOps (realistic_typing : Bool) (el : FoundElement)
    (value : Str) : List DriverOp :=
  if el.tag = ("select".data) then [.selectOption value]
  else if el.tag = ("input".data) ∨ el.tag = ("textarea".data) then
    let input_type :=
      if el.locator.attrType = [] then ("text".data) else el.locator.attrType
    if input_type = ("checkbox".data) then
      let should_check := truthyLits.contains (pyLower value)
      if el.locator.checked != should_check then [.click] else []
    else if input_type = ("radio".data) then [.click]
    else
      .clear ::
        (if realistic_typing then [.pressSequentially value] else [.fill value])
  else [.fill value]

/-- The field loop of `forms.fill_form`, from resolution-call index `k`
on.  Returns the trace of driver operations performed and, when a field
fails to resolve, the `ElementNotFoundError` that propagates (fail-fast:
the remaining pairs are not processed). -/
def fillFormGo (pages : Nat → Page) (retry : RetryConfig)
    (realistic_typing : Bool) (k : Nat) :
    List (Str × Str) → List DriverOp × Option ElementNotFoundError
  | [] => ([], none)
  | (label, value) :: rest =>
    match find_element (pages k) label (some retry) with
    | .error e => ([.resolve label], some e)
    | .ok el =>
        let tail := fillFormGo pages retry realistic_typing (k + 1) rest
        (.resolve label :: (fillFieldOps realistic_typing el value
            ++ [.pause]) ++ tail.1, tail.2)

/-- The function `forms.fill_form` (its `submit=False` field loop): the
ordered driver-operation trace and the propagated failure, if any. -/
def fill_form (pages : Nat → Page) (field_values : List (Str × Str))
    (retry : RetryConfig) (realistic_typing : Bool) :
    List DriverOp × Option ElementNotFoundError :=
  fillFormGo pages retry realistic_typing 0 field_values

/-- Modelled from the spec (§4.4 with §4.2), for comparison with the code:
a field loop in which each pair is resolved through the retry
orchestrator (`maxAttempts` attempts with a delay between them) instead of
by a single `find_element` call.  Each resolution attempt consumes one
page state. -/
def fillFormSpecGo (pages : Nat → Page) (retry : RetryConfig)
    (realistic_typing : Bool) (k : Nat) :
    List (Str × Str) → List DriverOp × Option ElementNotFoundError
  | [] => ([], none)
  | (label, value) :: rest =>
    match withRetry (fun i => find_element (pages (k + i)) label (some retry))
        retry.max_retries with
    | (.error e, attempts, _) =>
        ((List.range attempts).map (fun _ => .resolve label),
          some (e.getD ⟨label, []⟩))
    | (.ok el, attempts, _) =>
        let tail := fillFormSpecGo pages retry realistic_typing (k + attempts) rest
        ((List.range attempts).map (fun _ => DriverOp.resolve label)
            ++ (fillFieldOps realistic_typing el value ++ [.pause]) ++ tail.1,
          tail.2)

/-- Modelled from the spec (§4.4): `fillForm` with per-field retry. -/
def fillFormSpec (pages : Nat → Page) (field_values : List (Str × Str))
    (retry : RetryConfig) (realistic_typing : Bool) :
    List DriverOp × Option ElementNotFoundError :=
  fillFormSpecGo pages retry realistic_typing 0 field_values

/-! ## `extraction.py` — `get_links` and `page_state.py` — the navigation
section of `page_summary` (§4.5 item 4)

The in-page JavaScript of `get_links` walks `a[href]` anchors, computes
`text = innerText.trim() || aria-label || ''` and `href`, keeps the pair
when both are non-empty, and truncates the text to 200 characters; the
Python side marks a link external when its href does not start with the
page origin.  The anchor scan result is embedded as the ordered list of
`(text, href)` pairs the JavaScript computes before its emptiness
filter. -/

/-- A link extracted from the page (`extraction.Link`). -/
structure Link where
  text : Str
  href : Str
  is_external : Bool
deriving DecidableEq

/-- The function `extraction.get_links` over the raw anchor scan and the
page origin. -/
def get_links (raw : List (Str × Str)) (current_origin : Str) : List Link :=
  (raw.filter fun r => r.1 ≠ [] && r.2 ≠ []).map fun r =>
    { text := r.1.take 200, href := r.2,
      is_external := ! leadsWith current_origin r.2 }

/-- Python `sep.join(items)`. -/
def pyJoin (sep : Str) : List Str → Str
  | [] => []
  | [x] => x
  | x :: xs => x ++ sep ++ pyJoin sep xs

/-- The `nav_links` selection in `page_summary`
(`[l for l in all_links if not l.is_external and len(l.text) < 30][:max_items]`). -/
def navLinks (all_links : List Link) (max_items : Nat) : List Link :=
  (all_links.filter fun l => ! l.is_external && l.text.length < 30).take max_items

/-- The navigation section of `page_summary`: the lines it appends for
the links category (line 103 of `page_state.py`; the unconditional
trailing blank line is left out). -/
def navigationLines (all_links : List Link) (max_items : Nat) : List Str :=
  let nav_links := navLinks all_links max_items
  if nav_links ≠ [] then
    [("NAVIGATION: ".data) ++ pyJoin (" | ".data) ((nav_links.take 10).map Link.text)]
  else []

/-- Modelled from the spec (§4.5 item 4), for comparison with the code: a
navigation section listing the first `max_items` same-origin short links,
joined inline, with no further cap. -/
def navigationLinesSpec (all_links : List Link) (max_items : Nat) : List Str :=
  let nav_links := navLinks all_links max_items
  if nav_links ≠ [] then
    [("NAVIGATION: ".data) ++ pyJoin (" | ".data) (nav_links.map Link.text)]
  else []

/-! ## `agent.py` — `BrowserAgent.replay` (§4.6)

The replay loop runs `method = getattr(self, recorded.action, None)`;
it silently skips the entry when the lookup yields `None` (`continue`),
and otherwise calls `method(**recorded.args)` (awaited when the
attribute is a coroutine function) before moving to the next entry.
Three outcomes of the `getattr` are therefore possible: the name
resolves to a callable, which is invoked; the name resolves to a
non-callable value, in which case `method(**recorded.args)` raises
`TypeError` and aborts the remaining sequence; or the name resolves to
nothing, and the entry is skipped. -/

/-- A page on which every locator primitive reports zero matches. -/
def emptyPage : Page :=
  { selectorMatches := fun _ => [], roleMatches := fun _ _ => [],
    labelMatches := fun _ => [], placeholderMatches := fun _ => [],
    textMatches := fun _ => [], attrMatches := fun _ => [],
    roleAll := fun _ => [] }

/-- A text input element. -/
def emailElem : Elem := { tag := ("input".data), innerText := [], attrType := ("text".data) }

/-- A page whose label locator matches `emailElem` for every query. -/
def laterPage : Page := { emptyPage with labelMatches := fun _ => [emailElem] }

/-- A page trace on which the first `find_element` call fails and every
later one succeeds via the label strategy. -/
def samplePages : Nat → Page := fun k => if k = 0 then emptyPage else laterPage

/-- A page trace on which every `find_element` call succeeds. -/
def samplePagesOk : Nat → Page := fun _ => laterPage

/-- One form field pair, as passed to `fill_form`. -/
def sampleFields : List (Str × Str) := [(("Email".data), ("x".data))]

/-- A retry policy with two attempts. -/
def sampleRetryCfg : RetryConfig := { max_retries := 2, retry_delay_ms := 1000, element_timeout_ms := 10000 }

/-- An input element carrying visible inner text, exposed under the ARIA
role `button` (as an `<input type="button">` is). -/
def inputButtonElem : Elem := { tag := ("input".data), innerText := ("Click me".data) }

/-- A page on which the role strategy matches `inputButtonElem` for the
`button` role. -/
def pageC7 : Page :=
  { emptyPage with
    roleMatches := fun role _ => if role = ("button".data) then [inputButtonElem] else [] }

/-- A password input whose inner text mirror holds a secret value. -/
def selInputElem : Elem :=
  { tag := ("input".data), innerText := ("secret".data) }

/-- A page whose selector locator matches `selInputElem` for every
query. -/
def pageSel : Page := { emptyPage with selectorMatches := fun _ => [selInputElem] }

/-- A div element with text, for the selector strategy. -/
def divElem : Elem := { tag := ("div".data), innerText := ("Panel".data) }

/-- A button element with text, for the role strategy. -/
def goButtonElem : Elem := { tag := ("button".data), innerText := ("Go".data) }

/-- A page exercising several strategies for different queries. -/
def pageW : Page :=
  { emptyPage with
    selectorMatches := fun q => if q = ("#a".data) then [divElem] else [],
    roleMatches := fun role q =>
      if role = ("button".data) ∧ q = ("Go".data) then [goButtonElem] else [],
    labelMatches := fun q => if q = ("Email".data) then [emailElem] else [] }

/-- Eleven same-origin links with short texts, in driver order. -/
def sampleNavLinks : List Link :=
  [{ text := ("a".data), href := ("/a".data), is_external := false },
   { text := ("b".data), href := ("/b".data), is_external := false },
   { text := ("c".data), href := ("/c".data), is_external := false },
   { text := ("d".data), href := ("/d".data), is_external := false },
   { text := ("e".data), href := ("/e".data), is_external := false },
   { text := ("f".data), href := ("/f".data), is_external := false },
   { text := ("g".data), href := ("/g".data), is_external := false },
   { text := ("h".data), href := ("/h".data), is_external := false },
   { text := ("i".data), href := ("/i".data), is_external := false },
   { text := ("j".data), href := ("/j".data), is_external := false },
   { text := ("k".data), href := ("/k".data), is_external := false }]

/-- Whether a driver operation is a `find_element` resolution. -/
def isResolve : DriverOp → Bool
  | .resolve _ => true
  | _ => false

/-! ## Theorems -/

/-! ### Recorder claims -/

/-- C9: for every `RecordedAction` whose arguments are of the
serializable kinds (string / number / bool / mapping — the `JVal` type),
`RecordedAction.from_dict (a.to_dict) = a`: action name, arguments and
timestamp offset round-trip unchanged. -/
theorem recorded_action_roundtrip (a : RecordedAction) :
    RecordedAction.from_dict a.to_dict = a := rfl

/-- C10: when no recording session is active, `record` is a no-op — the
buffer, the flag and the time origin are all unchanged. -/
theorem record_noop_when_not_recording (r : ActionRecorder) (action : Str)
    (kwargs : List (Str × JVal)) (now : Int) (h : r.recording = false) :
    r.record action kwargs now = r := by
  simp [ActionRecorder.record, h]

/-- Witness for C10 at a concrete recorder state. -/
theorem record_noop_when_not_recording_witness :
    ActionRecorder.init.recording = false ∧
      ActionRecorder.init.record ("click".data) [] 5 = ActionRecorder.init :=
  ⟨rfl, record_noop_when_not_recording ActionRecorder.init ("click".data) [] 5 rfl⟩

/-- Preservation lemma: while recording, `record` calls append in order
and keep the flag and time origin. -/
theorem runRecords_recording (evs : List (Str × List (Str × JVal) × Int)) :
    ∀ r : ActionRecorder, r.recording = true →
      runRecords r evs =
        { recording := true,
          actions := r.actions ++
            evs.map (fun e => ⟨e.1, e.2.1, e.2.2 - r.start_time⟩),
          start_time := r.start_time } := by
  induction evs with
  | nil =>
      intro r h
      cases r with
      | mk rec acts t0 => simp_all [runRecords]
  | cons e evs ih =>
      intro r h
      rw [runRecords]
      rw [ih (r.record e.1 e.2.1 e.2.2) (by simp [ActionRecorder.record, h])]
      simp [ActionRecorder.record, h]

/-- C3 counterexample: the claim "after stop the recorder's buffer is
empty" is false — after `start`, one `record`, and `stop`, the post-stop
state still holds the recorded action. -/
theorem stop_leaves_buffer_cex :
    (((ActionRecorder.init.start 0).record ("click".data) [] 1).stop).2.actions
        = [⟨("click".data), [], 1⟩] ∧
      (((ActionRecorder.init.start 0).record ("click".data) [] 1).stop).2.actions
        ≠ [] := by
  constructor
  · rfl
  · intro h
    rw [(rfl :
      (((ActionRecorder.init.start 0).record ("click".data) [] 1).stop).2.actions
        = [⟨("click".data), [], 1⟩])] at h
    exact List.cons_ne_nil _ _ h

/-- C3 amended: `start` clears the action buffer, sets the recording
flag, and resets the time origin; `stop` returns the action sequence
accumulated since `start` (with offsets relative to the start time) and
clears only the recording flag — the buffer retains the returned
sequence until the next `start`. -/
theorem start_stop_session_behavior (r0 : ActionRecorder) (t0 : Int)
    (evs : List (Str × List (Str × JVal) × Int)) :
    r0.start t0 = ⟨true, [], t0⟩ ∧
      (runRecords (r0.start t0) evs).stop =
        (evs.map (fun e => ⟨e.1, e.2.1, e.2.2 - t0⟩),
          ⟨false, evs.map (fun e => ⟨e.1, e.2.1, e.2.2 - t0⟩), t0⟩) := by
  constructor
  · rfl
  · rw [runRecords_recording evs (r0.start t0) rfl]
    rfl

/-! ### C1 — the retry orchestrator -/

/-- All attempts from `i` on fail: the loop re-raises the last error
after running to the end, sleeping on every failure except the final
attempt's. -/
theorem withRetryGo_all_fail {E A : Type} (f : Nat → Except E A)
    (errs : Nat → E) (maxR : Nat) :
    ∀ cnt i sleeps lastErr, i + (cnt + 1) = maxR →
      (∀ j, i ≤ j → j < maxR → f j = .error (errs j)) →
      withRetryGo f maxR (List.range' i (cnt + 1)) sleeps lastErr =
        (.error (some (errs (maxR - 1))), maxR, sleeps + (maxR - 1 - i)) := by
  intro cnt
  induction cnt with
  | zero =>
      intro i sleeps lastErr hn hf
      have hi : i < maxR := by omega
      rw [List.range'_one, withRetryGo]
      simp only [hf i le_rfl hi]
      have hnlt : ¬ i < maxR - 1 := by omega
      have h1 : i = maxR - 1 := by omega
      have h3 : maxR - 1 - i = 0 := by omega
      rw [if_neg hnlt, withRetryGo, h3, h1]
      simp
  | succ n ih =>
      intro i sleeps lastErr hn hf
      have hi : i < maxR := by omega
      rw [List.range'_succ, withRetryGo]
      simp only [hf i le_rfl hi]
      have hlt : i < maxR - 1 := by omega
      rw [if_pos hlt,
        ih (i + 1) (sleeps + 1) (some (errs i)) (by omega)
          (fun j hj1 hj2 => hf j (by omega) hj2)]
      have : sleeps + 1 + (maxR - 1 - (i + 1)) = sleeps + (maxR - 1 - i) := by
        omega
      rw [this]

/-- The attempts from `i` to `m - 1` fail and attempt `m` succeeds: the
loop returns the success after `m + 1` total attempts, having slept once
per failure. -/
theorem withRetryGo_success {E A : Type} (f : Nat → Except E A)
    (errs : Nat → E) (maxR m : Nat) (d : A) :
    ∀ cnt i sleeps lastErr, i + cnt = maxR → i ≤ m → m < maxR →
      (∀ j, i ≤ j → j < m → f j = .error (errs j)) → f m = .ok d →
      withRetryGo f maxR (List.range' i cnt) sleeps lastErr =
        (.ok d, m + 1, sleeps + (m - i)) := by
  intro cnt
  induction cnt with
  | zero => intro i sleeps lastErr hn hi hm _ _; omega
  | succ n ih =>
      intro i sleeps lastErr hn hi hm hf hok
      rw [List.range'_succ, withRetryGo]
      by_cases hieq : i = m
      · subst hieq
        simp only [hok]
        simp
      · have hilt : i < m := by omega
        simp only [hf i le_rfl hilt]
        have hlt : i < maxR - 1 := by omega
        rw [if_pos hlt,
          ih (i + 1) (sleeps + 1) (some (errs i)) (by omega) (by omega) hm
            (fun j hj1 hj2 => hf j (by omega) hj2) hok]
        have : sleeps + 1 + (m - (i + 1)) = sleeps + (m - i) := by omega
        rw [this]

/-- C1: for every retry policy with `maxAttempts = N ≥ 1` — if every
resolution attempt fails with NotFound, `_with_retry` makes exactly `N`
attempts with exactly `N - 1` delay sleeps and re-raises the error of the
final attempt unchanged; if the first `N - 1` attempts fail and attempt
`N` succeeds, it returns that attempt's descriptor after exactly `N - 1`
sleeps (and `N` attempts). -/
theorem with_retry_retry_semantics {E A : Type} (f : Nat → Except E A)
    (errs : Nat → E) (N : Nat) (hN : 1 ≤ N) :
    ((∀ i, i < N → f i = .error (errs i)) →
        withRetry f N = (.error (some (errs (N - 1))), N, N - 1)) ∧
      (∀ d : A, (∀ i, i < N - 1 → f i = .error (errs i)) →
        f (N - 1) = .ok d → withRetry f N = (.ok d, N, N - 1)) := by
  constructor
  · intro hf
    have hr : List.range N = List.range' 0 ((N - 1) + 1) := by
      rw [List.range_eq_range']
      congr 1
      omega
    rw [withRetry, hr,
      withRetryGo_all_fail f errs N (N - 1) 0 0 none (by omega)
        (fun j _ hj => hf j hj)]
    simp
  · intro d hf hok
    rw [withRetry, List.range_eq_range',
      withRetryGo_success f errs N (N - 1) d N 0 0 none (by omega)
        (by omega) (by omega) (fun j _ hj => hf j hj) hok]
    have : N - 1 + 1 = N := by omega
    rw [this]
    simp

/-- Witness for C1 at `N = 3`: an always-failing resolver raises the
third attempt's error after 3 attempts and 2 sleeps; a resolver failing
twice then succeeding returns the descriptor after 3 attempts and 2
sleeps. -/
theorem with_retry_retry_semantics_witness :
    withRetry (E := Nat) (A := Nat) (fun i => .error i) 3
        = (.error (some 2), 3, 2) ∧
      withRetry (fun i => if i < 2 then .error i else .ok 7) 3
        = (.ok 7, 3, 2) := by
  constructor
  · exact (with_retry_retry_semantics (fun i => .error i) (fun i => i) 3
      (by omega)).1 (fun i _ => rfl)
  · exact (with_retry_retry_semantics
      (fun i => if i < 2 then .error i else .ok 7) (fun i => i) 3
      (by omega)).2 7 (fun i hi => by simp [hi]) (by simp)

/-! ### C6 — checkbox filling -/

/-- C6: when `fill_form` handles a checkbox field, the value is parsed as
truthy exactly when its lowercase form is in `{"true","yes","1","on"}`,
and the branch clicks exactly once when the parsed value differs from the
current checked state and performs no operation when they agree. -/
theorem fill_form_checkbox_toggle (realistic_typing : Bool)
    (el : FoundElement) (value : Str)
    (htag : el.tag = ("input".data))
    (htype : (if el.locator.attrType = [] then ("text".data)
        else el.locator.attrType) = ("checkbox".data)) :
    fillFieldOps realistic_typing el value =
      (if el.locator.checked = truthyLits.contains (pyLower value) then []
       else [.click]) := by
  simp only [fillFieldOps, htag]
  rw [if_neg (by decide : ¬ (("input".data : Str) = ("select".data)))]
  rw [if_pos (by exact Or.inl trivial)]
  rw [if_pos htype]
  by_cases h : el.locator.checked = truthyLits.contains (pyLower value)
  · simp [h]
  · simp [h]

/-- Witness for C6 at the three states named by the spec: an unchecked
box with value `"yes"` gets one click, a checked box with value
`"false"` gets one click, a checked box with value `"yes"` gets none. -/
theorem fill_form_checkbox_toggle_witness :
    fillFieldOps false
        ⟨⟨("input".data), [], ("checkbox".data), false⟩,
          ("input".data), [], none, none⟩ ("yes".data) = [.click] ∧
      fillFieldOps false
        ⟨⟨("input".data), [], ("checkbox".data), true⟩,
          ("input".data), [], none, none⟩ ("false".data) = [.click] ∧
      fillFieldOps false
        ⟨⟨("input".data), [], ("checkbox".data), true⟩,
          ("input".data), [], none, none⟩ ("yes".data) = [] := by
  refine ⟨?_, ?_, ?_⟩
  · exact (fill_form_checkbox_toggle false _ _ rfl (by decide)).trans (by decide)
  · exact (fill_form_checkbox_toggle false _ _ rfl (by decide)).trans (by decide)
  · exact (fill_form_checkbox_toggle false _ _ rfl (by decide)).trans (by decide)

/-! ### C8 — the summarizer's navigation section -/

/-- C8 counterexample: with `max_items = 20` and eleven qualifying
same-origin short links, the code's navigation line joins only the first
ten links, not the first `max_items` the claim (and the spec sentence)
promises — the eleventh qualifying link is dropped by a hard `[:10]`
cap. -/
theorem navigation_cap_cex :
    navigationLines sampleNavLinks 20 =
        [("NAVIGATION: a | b | c | d | e | f | g | h | i | j".data)] ∧
      navigationLinesSpec sampleNavLinks 20 =
        [("NAVIGATION: a | b | c | d | e | f | g | h | i | j | k".data)] ∧
      navigationLines sampleNavLinks 20 ≠ navigationLinesSpec sampleNavLinks 20 := by
  refine ⟨by decide, by decide, by decide⟩

/-- C8 amended: the navigation section lists the first
`min 10 max_items` same-origin links whose text is under 30 characters,
in driver order, joined inline (the code truncates the qualifying list to
`max_items` and then to 10). -/
theorem navigation_lists_first_min_ten (all_links : List Link)
    (max_items : Nat) :
    navigationLines all_links max_items =
      (if navLinks all_links max_items ≠ [] then
        [("NAVIGATION: ".data) ++ pyJoin (" | ".data)
          (((all_links.filter fun l => ! l.is_external && l.text.length < 30).take
              (min 10 max_items)).map Link.text)]
       else []) := by
  simp only [navigationLines, navLinks, List.take_take]

/-! ### C4 — replay dispatch -/

/-- When every role in the list has zero matches, the role loop yields
nothing. -/
theorem tryRoles_none (page : Page) (q : Str) :
    ∀ rs : List Str, (∀ r ∈ rs, page.roleMatches r q = []) →
      tryRoles page q rs = none := by
  intro rs
  induction rs with
  | nil => intro _; rfl
  | cons r rest ih =>
      intro h
      simp only [tryRoles, h r (List.Mem.head _)]
      exact ih fun r' hr' => h r' (List.Mem.tail _ hr')

/-- The first role with at least one match wins the role loop. -/
theorem tryRoles_first (page : Page) (q : Str) :
    ∀ (pre : List Str) (role : Str) (post : List Str) (e : Elem)
      (es : List Elem),
      (∀ r ∈ pre, page.roleMatches r q = []) →
      page.roleMatches role q = e :: es →
      tryRoles page q (pre ++ role :: post) =
        some ⟨e, tagOr e.tag role, stripTake100 e.innerText, some role, none⟩ := by
  intro pre
  induction pre with
  | nil =>
      intro role post e es _ hm
      simp only [List.nil_append, tryRoles, hm]
  | cons r pre ih =>
      intro role post e es hpre hm
      simp only [List.cons_append, tryRoles, hpre r (List.Mem.head _)]
      exact ih role post e es (fun r' hr' => hpre r' (List.Mem.tail _ hr')) hm

/-- C2: resolution tries the strategies in the fixed order
selector-literal, role, label, placeholder, free text, title/aria-label
attribute; the selector-literal strategy is attempted exactly when the
query looks structural (starts with `//`, `xpath=`, `#`, `.` or `[`, or
contains `::`, ` > ` or ` ~ `); the first strategy with at least one
match short-circuits with its first match's descriptor, with no
cross-strategy scoring or merging, and total failure raises NotFound. -/
theorem find_element_strategy_chain (page : Page) (q : Str)
    (cfg : Option RetryConfig) :
    (looksLikeSelector q =
        (leadsWith ("//".data) q || leadsWith ("xpath=".data) q ||
          (match q with
           | c :: _ => c = '#' || c = '.' || c = '['
           | [] => false) ||
          containsSub ("::".data) q || containsSub (" > ".data) q ||
          containsSub (" ~ ".data) q))
    ∧ (∀ e es, looksLikeSelector q = true → page.selectorMatches q = e :: es →
        find_element page q cfg =
          .ok ⟨e, tagOr e.tag ("unknown".data),
            if inputTags.contains (tagOr e.tag ("unknown".data)) then []
            else stripTake100 e.innerText, none, none⟩)
    ∧ (looksLikeSelector q = false →
        find_element page q cfg = findByRole page q)
    ∧ (looksLikeSelector q = true → page.selectorMatches q = [] →
        find_element page q cfg = findByRole page q)
    ∧ (∀ pre role post e es, roleOrder = pre ++ role :: post →
        (∀ r ∈ pre, page.roleMatches r q = []) →
        page.roleMatches role q = e :: es →
        findByRole page q =
          .ok ⟨e, tagOr e.tag role, stripTake100 e.innerText, some role, none⟩)
    ∧ ((∀ r ∈ roleOrder, page.roleMatches r q = []) →
        findByRole page q = findByLabel page q)
    ∧ (∀ e es, page.labelMatches q = e :: es →
        findByLabel page q =
          .ok ⟨e, tagOr e.tag ("input".data), [], none, some q⟩)
    ∧ (page.labelMatches q = [] →
        findByLabel page q = findByPlaceholder page q)
    ∧ (∀ e es, page.placeholderMatches q = e :: es →
        findByPlaceholder page q =
          .ok ⟨e, tagOr e.tag ("input".data), [], none, some q⟩)
    ∧ (page.placeholderMatches q = [] →
        findByPlaceholder page q = findByText page q)
    ∧ (∀ e es, page.textMatches q = e :: es →
        findByText page q =
          .ok ⟨e, tagOr e.tag ("unknown".data), stripTake100 e.innerText,
            none, none⟩)
    ∧ (page.textMatches q = [] → findByText page q = findByAttr page q)
    ∧ (∀ e es, page.attrMatches q = e :: es →
        findByAttr page q =
          .ok ⟨e, tagOr e.tag ("unknown".data),
            stripTake100
              (if inputTags.contains (tagOr e.tag ("unknown".data)) then []
               else e.innerText), none, none⟩)
    ∧ (page.attrMatches q = [] →
        findByAttr page q = .error ⟨q, getAvailableInteractive page 15⟩) := by
  refine ⟨?_, ?_, ?_, ?_, ?_, ?_, ?_, ?_, ?_, ?_, ?_, ?_, ?_, ?_⟩
  · cases h1 : leadsWith ("//".data) q <;>
      cases h2 : leadsWith ("xpath=".data) q <;>
      cases h3 : (match q with
                  | c :: _ => c = '#' || c = '.' || c = '['
                  | [] => false) <;>
      cases h4 : containsSub ("::".data) q <;>
      cases h5 : containsSub (" > ".data) q <;>
      cases h6 : containsSub (" ~ ".data) q <;>
      simp [looksLikeSelector, h1, h2, h3, h4, h5, h6]
  · intro e es hq hsel
    simp only [find_element, hq, hsel]
    rfl
  · intro hq
    simp only [find_element, hq]
    rfl
  · intro hq hsel
    simp only [find_element, hq, hsel]
    simp
  · intro pre role post e es hro hpre hm
    rw [findByRole, hro, tryRoles_first page q pre role post e es hpre hm]
  · intro h
    rw [findByRole, tryRoles_none page q roleOrder h]
  · intro e es h
    simp only [findByLabel, h]
  · intro h
    simp only [findByLabel, h]
  · intro e es h
    simp only [findByPlaceholder, h]
  · intro h
    simp only [findByPlaceholder, h]
  · intro e es h
    simp only [findByText, h]
  · intro h
    simp only [findByText, h]
  · intro e es h
    simp only [findByAttr, h]
  · intro h
    simp only [findByAttr, h]

/-- Witness for C2 at a concrete page: a structural query resolves via
the selector strategy, a button name via the role strategy, a field name
with no role/selector match via the label strategy. -/
theorem find_element_strategy_chain_witness :
    find_element pageW ("#a".data) none =
        .ok ⟨divElem, ("div".data), ("Panel".data), none, none⟩ ∧
      find_element pageW ("Go".data) none =
        .ok ⟨goButtonElem, ("button".data), ("Go".data),
          some ("button".data), none⟩ ∧
      find_element pageW ("Email".data) none =
        .ok ⟨emailElem, ("input".data), [], none, some ("Email".data)⟩ := by
  refine ⟨?_, ?_, ?_⟩
  · obtain ⟨-, c2, -⟩ := find_element_strategy_chain pageW ("#a".data) none
    exact (c2 divElem [] rfl rfl).trans rfl
  · obtain ⟨-, -, c3, -, c5, -⟩ := find_element_strategy_chain pageW ("Go".data) none
    exact (c3 rfl).trans
      ((c5 [] ("button".data)
        [("link".data), ("menuitem".data), ("tab".data), ("option".data)]
        goButtonElem [] rfl (by simp) rfl).trans rfl)
  · obtain ⟨-, -, c3, -, -, c6, c7, -⟩ :=
      find_element_strategy_chain pageW ("Email".data) none
    exact (c3 rfl).trans ((c6 (by decide)).trans (c7 emailElem [] rfl))

/-! ### C7 — display text of a resolved descriptor -/

/-- The stripped-and-truncated text read by the resolver never exceeds
100 characters. -/
theorem stripTake100_length (s : Str) : (stripTake100 s).length ≤ 100 := by
  calc (stripTake100 s).length = min 100 (pyStrip s).length := by
        simp [stripTake100, List.length_take]
    _ ≤ 100 := Nat.min_le_left _ _

/-- Length bound for the attribute strategy. -/
theorem findByAttr_text_le (page : Page) (q : Str) (d : FoundElement)
    (h : findByAttr page q = .ok d) : d.text.length ≤ 100 := by
  cases hm : page.attrMatches q with
  | nil => rw [findByAttr, hm] at h; cases h
  | cons first rest =>
      rw [findByAttr, hm] at h
      cases h
      exact stripTake100_length _

/-- Length bound for the free-text strategy and below. -/
theorem findByText_text_le (page : Page) (q : Str) (d : FoundElement)
    (h : findByText page q = .ok d) : d.text.length ≤ 100 := by
  cases hm : page.textMatches q with
  | nil =>
      rw [findByText, hm] at h
      exact findByAttr_text_le page q d h
  | cons first rest =>
      rw [findByText, hm] at h
      cases h
      exact stripTake100_length _

/-- Length bound for the placeholder strategy and below. -/
theorem findByPlaceholder_text_le (page : Page) (q : Str) (d : FoundElement)
    (h : findByPlaceholder page q = .ok d) : d.text.length ≤ 100 := by
  cases hm : page.placeholderMatches q with
  | nil =>
      rw [findByPlaceholder, hm] at h
      exact findByText_text_le page q d h
  | cons first rest =>
      rw [findByPlaceholder, hm] at h
      cases h
      simp

/-- Length bound for the label strategy and below. -/
theorem findByLabel_text_le (page : Page) (q : Str) (d : FoundElement)
    (h : findByLabel page q = .ok d) : d.text.length ≤ 100 := by
  cases hm : page.labelMatches q with
  | nil =>
      rw [findByLabel, hm] at h
      exact findByPlaceholder_text_le page q d h
  | cons first rest =>
      rw [findByLabel, hm] at h
      cases h
      simp

/-- Length bound for the role loop. -/
theorem tryRoles_text_le (page : Page) (q : Str) (d : FoundElement) :
    ∀ rs : List Str, tryRoles page q rs = some d → d.text.length ≤ 100 := by
  intro rs
  induction rs with
  | nil => intro h; cases h
  | cons r rest ih =>
      intro h
      rw [tryRoles] at h
      cases hm : page.roleMatches r q with
      | nil => rw [hm] at h; exact ih h
      | cons first tail =>
          rw [hm] at h
          cases h
          exact stripTake100_length _

/-- Length bound for the role strategy and below. -/
theorem findByRole_text_le (page : Page) (q : Str) (d : FoundElement)
    (h : findByRole page q = .ok d) : d.text.length ≤ 100 := by
  rw [findByRole] at h
  cases hm : tryRoles page q roleOrder with
  | none =>
      rw [hm] at h
      exact findByLabel_text_le page q d h
  | some fe =>
      rw [hm] at h
      cases h
      exact tryRoles_text_le page q d roleOrder hm

/-- C7 amended: every successful resolution's display text is at most
100 characters; the selector-literal and attribute strategies blank it
for input-like tags (input, select, textarea) — but the role and
free-text strategies surface the element's (stripped, truncated) inner
text with no input-tag exemption, so the claim's "empty for input-like
tags" holds per strategy, not for every resolution. -/
theorem find_element_display_text (page : Page) (q : Str)
    (cfg : Option RetryConfig) :
    (∀ d, find_element page q cfg = .ok d → d.text.length ≤ 100) ∧
      (∀ e es, looksLikeSelector q = true →
        page.selectorMatches q = e :: es →
        inputTags.contains (tagOr e.tag ("unknown".data)) = true →
        find_element page q cfg =
          .ok ⟨e, tagOr e.tag ("unknown".data), [], none, none⟩) ∧
      (∀ e es, page.attrMatches q = e :: es →
        inputTags.contains (tagOr e.tag ("unknown".data)) = true →
        findByAttr page q =
          .ok ⟨e, tagOr e.tag ("unknown".data), [], none, none⟩) := by
  refine ⟨?_, ?_, ?_⟩
  · intro d h
    rw [find_element] at h
    by_cases hq : looksLikeSelector q
    · rw [if_pos hq] at h
      cases hm : page.selectorMatches q with
      | nil => rw [hm] at h; exact findByRole_text_le page q d h
      | cons first rest =>
          rw [hm] at h
          cases h
          split
          · simp
          · exact stripTake100_length _
    · rw [if_neg hq] at h
      exact findByRole_text_le page q d h
  · intro e es hq hsel hinput
    simp only [find_element, hq, hsel, hinput]
    rfl
  · intro e es hm hinput
    simp only [findByAttr, hm, hinput]
    rfl

/-- Witness for C7's amended claim: a successful concrete resolution
obeys the bound, and a structural query resolving to an input via the
selector strategy yields empty display text. -/
theorem find_element_display_text_witness :
    (FoundElement.text
        ⟨divElem, ("div".data), ("Panel".data), none, none⟩).length ≤ 100 ∧
      find_element pageSel ("#pw".data) none =
        .ok ⟨selInputElem, ("input".data), [], none, none⟩ := by
  constructor
  · exact (find_element_display_text pageW ("#a".data) none).1
      ⟨divElem, ("div".data), ("Panel".data), none, none⟩ rfl
  · exact ((find_element_display_text pageSel ("#pw".data) none).2.1
      selInputElem [] rfl rfl (by decide)).trans rfl

/-- C7 counterexample: the claim "display text is empty when the matched
element's tag is input-like" fails for a resolution through the role
strategy — an `<input type="button">` exposed under role `button`
surfaces its inner text as display text. -/
theorem display_text_input_cex :
    find_element pageC7 ("Go".data) none =
        .ok ⟨inputButtonElem, ("input".data), ("Click me".data),
          some ("button".data), none⟩ ∧
      inputTags.contains ("input".data) = true ∧
      (("Click me".data : Str)) ≠ [] := by
  refine ⟨rfl, by decide, by decide⟩

/-! ### C5 — field resolution in `fill_form` -/

/-- C5 counterexample: with a two-attempt retry policy and a field that
fails to resolve on the first page state but resolves on the next,
`fill_form` raises NotFound after a single `find_element` call — it does
not resolve fields through the retry orchestrator, which would have
retried once and succeeded. -/
theorem fill_form_no_retry_cex :
    fill_form samplePages sampleFields sampleRetryCfg false =
        ([.resolve ("Email".data)], some ⟨("Email".data), []⟩) ∧
      fillFormSpec samplePages sampleFields sampleRetryCfg false =
        ([.resolve ("Email".data), .resolve ("Email".data), .clear,
          .fill ("x".data), .pause], none) ∧
      fill_form samplePages sampleFields sampleRetryCfg false ≠
        fillFormSpec samplePages sampleFields sampleRetryCfg false := by
  refine ⟨rfl, rfl, by decide⟩

/-- The type-specific field handling never performs a resolution. -/
theorem fillFieldOps_no_resolve (realistic_typing : Bool)
    (el : FoundElement) (value : Str) :
    (fillFieldOps realistic_typing el value).filter isResolve = [] := by
  simp only [fillFieldOps]
  split_ifs <;> simp [isResolve]

/-- C5 amended: `fill_form` processes the pairs in caller-supplied order
and resolves each field with exactly one `find_element` call — the
caller-supplied retry policy is passed through but unused (`find_element`
ignores its `config` parameter), so no per-field retry or delay occurs:
the trace is invariant under the retry policy, and on a fully resolvable
run the resolution events are exactly one per pair, in order. -/
theorem fill_form_single_resolution (pages : Nat → Page)
    (realistic_typing : Bool) :
    ∀ (fields : List (Str × Str)) (retry retry' : RetryConfig) (k : Nat),
      fillFormGo pages retry realistic_typing k fields =
          fillFormGo pages retry' realistic_typing k fields ∧
        ((∀ j (hj : j < fields.length),
            ∃ el, find_element (pages (k + j)) (fields.get ⟨j, hj⟩).1
              (some retry) = .ok el) →
          (fillFormGo pages retry realistic_typing k fields).1.filter isResolve =
              fields.map (fun p => .resolve p.1) ∧
            (fillFormGo pages retry realistic_typing k fields).2 = none) := by
  intro fields
  induction fields with
  | nil => exact fun retry retry' k => ⟨rfl, fun _ => ⟨rfl, rfl⟩⟩
  | cons p rest ih =>
      intro retry retry' k
      obtain ⟨label, value⟩ := p
      constructor
      · simp only [fillFormGo]
        have hfe : find_element (pages k) label (some retry) =
            find_element (pages k) label (some retry') := rfl
        rw [hfe]
        cases h : find_element (pages k) label (some retry') with
        | error e => rfl
        | ok el => rw [(ih retry retry' (k + 1)).1]
      · intro hs
        obtain ⟨el, hel⟩ := hs 0 (by simp)
        simp only [List.get] at hel
        rw [Nat.add_zero] at hel
        have hs' : ∀ j (hj : j < rest.length),
            ∃ el, find_element (pages (k + 1 + j)) (rest.get ⟨j, hj⟩).1
              (some retry) = .ok el := by
          intro j hj
          have h2 := hs (j + 1) (by simpa using Nat.succ_lt_succ hj)
          simp only [List.get] at h2
          have h3 : k + (j + 1) = k + 1 + j := by omega
          rw [h3] at h2
          exact h2
        obtain ⟨ihf, ihe⟩ := (ih retry retry (k + 1)).2 hs'
        constructor
        · simp only [fillFormGo, hel, List.map_cons]
          simp [List.filter_append, fillFieldOps_no_resolve, isResolve, ihf]
        · simp only [fillFormGo, hel]
          exact ihe

/-- Witness for C5's amended claim on a concrete run: the trace is the
same under two different retry policies, and a one-field resolvable run
performs exactly one resolution and no error. -/
theorem fill_form_single_resolution_witness :
    fillFormGo samplePagesOk sampleRetryCfg false 0 sampleFields =
        fillFormGo samplePagesOk ⟨5, 50, 50⟩ false 0 sampleFields ∧
      (fillFormGo samplePagesOk sampleRetryCfg false 0 sampleFields).1.filter
          isResolve = [.resolve ("Email".data)] ∧
      (fillFormGo samplePagesOk sampleRetryCfg false 0 sampleFields).2 = none := by
  have h := fill_form_single_resolution samplePagesOk false sampleFields
    sampleRetryCfg ⟨5, 50, 50⟩ 0
  have hres : ∀ j (hj : j < sampleFields.length),
      ∃ el, find_element (samplePagesOk (0 + j)) (sampleFields.get ⟨j, hj⟩).1
        (some sampleRetryCfg) = .ok el := by
    intro j hj
    have hj0 : j = 0 := by
      have : sampleFields.length = 1 := rfl
      omega
    subst hj0
    exact ⟨⟨emailElem, ("input".data), [], none, some ("Email".data)⟩, rfl⟩
  exact ⟨h.1, (h.2 hres).1.trans rfl, (h.2 hres).2⟩

end AgentBrowser
